import Mathlib

/-
Verification of the risk-computation core of the SMART CVD risk-reduction app
(src/app_final_fixed.py) against its natural-language specification.

The Python functions are shallowly embedded over the real numbers:
Python floats become elements of the real numbers, the one-decimal `round(x, 1)`
becomes `round1`, and `math.log` (which raises ValueError on a nonpositive
argument) becomes the Option-valued `mathlog`.  Streamlit-level code is modelled
only where a claim cites it: the results-step expressions `arr10`/`rrr10`
(source lines 160-162) and the `lifetime_display` sentinel (line 151), where
the string value "N/A" is modelled by `none`.
-/

namespace HOPE

/-- Python `round(x, 1)`: rounding to one decimal place, modelled as rounding
`10 * x` to the nearest integer and dividing by 10. -/
noncomputable def round1 (x : ℝ) : ℝ := ((round (10 * x) : ℤ) : ℝ) / 10

/-- Python `math.log`: the natural logarithm, which raises (returns `none`) on
a nonpositive argument. -/
noncomputable def mathlog (x : ℝ) : Option ℝ :=
  if 0 < x then some (Real.log x) else none

/-- Embedding of `estimate_10y_risk` (source lines 70-79).  The sex argument is
the literal string compared against "Male" as in the source; `math.log (crp+1)`
is evaluated first, so a nonpositive `crp + 1` aborts the whole call. -/
noncomputable def estimate_10y_risk (age : ℝ) (sex : String) (sbp tc hdl : ℝ)
    (smoker diabetes : Bool) (egfr crp vasc : ℝ) : Option ℝ :=
  let sex_v : ℝ := if sex = "Male" then 1 else 0
  let smoke_v : ℝ := if smoker then 1 else 0
  let dm_v : ℝ := if diabetes then 1 else 0
  (mathlog (crp + 1)).map (fun crp_l =>
    let lp := 0.064 * age + 0.34 * sex_v + 0.02 * sbp + 0.25 * tc
      - 0.25 * hdl + 0.44 * smoke_v + 0.51 * dm_v
      - 0.2 * (egfr / 10) + 0.25 * crp_l + 0.4 * vasc
    let raw := 1 - (0.900 : ℝ) ^ Real.exp (lp - 5.8)
    round1 (min (raw * 100) 95.0))

/-- Embedding of `convert_5yr` (source lines 81-83). -/
noncomputable def convert_5yr (r10 : ℝ) : ℝ :=
  let p := min r10 95.0 / 100
  round1 (min ((1 - (1 - p) ^ (0.5 : ℝ)) * 100) 95.0)

/-- Embedding of `estimate_lifetime_risk` (source lines 85-89). -/
noncomputable def estimate_lifetime_risk (age r10 : ℝ) : ℝ :=
  let years := max (85 - age) 0
  let p10 := min r10 95.0 / 100
  let annual := 1 - (1 - p10) ^ ((1 : ℝ) / 10)
  round1 (min ((1 - (1 - annual) ^ years) * 100) 95.0)

/-- Embedding of the results-step expression
`lifetime_display = "N/A" if age >= 85 else fmt_pct(rlt)` (source line 151);
the string "N/A" is modelled by `none` and a displayed number by `some`. -/
noncomputable def lifetime_display (age r10 : ℝ) : Option ℝ :=
  if 85 ≤ age then none else some (estimate_lifetime_risk age r10)

/-- Embedding of `arr10 = r10 - rlt if age < 85 else None` (source line 160),
with `rlt = estimate_lifetime_risk age r10` as on line 150. -/
noncomputable def arr10 (age r10 : ℝ) : Option ℝ :=
  if age < 85 then some (r10 - estimate_lifetime_risk age r10) else none

/-- Embedding of `rrr10 = round(arr10 / r10 * 100, 1) if arr10 else None`
(source line 161): `None` and the float `0.0` are falsy, so the division only
happens when `arr10` is a nonzero number. -/
noncomputable def rrr10 (age r10 : ℝ) : Option ℝ :=
  match arr10 age r10 with
  | none => none
  | some a => if a = 0 then none else some (round1 (a / r10 * 100))

/-- The fixed therapy-effect table `E` inside `calculate_ldl_projection`
(source lines 56-63), as a lookup: any other name, including the placeholder
"None", is absent from the table. -/
def E (drug : String) : Option ℝ :=
  if drug = "Atorvastatin 80 mg" then some 0.50
  else if drug = "Rosuvastatin 20 mg" then some 0.55
  else if drug = "Ezetimibe 10 mg" then some 0.20
  else if drug = "Bempedoic acid" then some 0.18
  else if drug = "PCSK9 inhibitor" then some 0.60
  else if drug = "Inclisiran" then some 0.55
  else none

/-- One iteration of the loop body of `calculate_ldl_projection`:
`if drug in E: ldl *= (1 - E[drug])`. -/
noncomputable def applyDrug (ldl : ℝ) (drug : String) : ℝ :=
  match E drug with
  | some e => ldl * (1 - e)
  | none => ldl

/-- Embedding of `calculate_ldl_projection` (source lines 55-68): fold the
loop body over `pre_list + new_list` and floor the result at 0.5. -/
noncomputable def calculate_ldl_projection (baseline_ldl : ℝ)
    (pre_list new_list : List String) : ℝ :=
  max ((pre_list ++ new_list).foldl applyDrug baseline_ldl) 0.5

/-- The multiplicative factor one loop iteration applies to the running LDL
for a given therapy name: `1 - E drug` for a name in the table, `1` otherwise. -/
noncomputable def dfactor (drug : String) : ℝ :=
  match E drug with
  | some e => 1 - e
  | none => 1

/-- The product of the factors of a list of therapy names. -/
noncomputable def lfactor (l : List String) : ℝ := (l.map dfactor).prod

/-- The spec formula for the 10-year risk, written from the spec text: the
weighted sum of the covariates with the fixed coefficient vector, the transform
`1 - 0.900 ^ exp (lp - 5.8)`, percentage scaling, the 95.0 cap and one-decimal
rounding.  Indicator covariates are passed as real indicators. -/
noncomputable def spec_10y_risk (age sex_ind sbp tc hdl smoke_ind dm_ind
    egfr crp vasc : ℝ) : ℝ :=
  let lp := 0.064 * age + 0.34 * sex_ind + 0.02 * sbp + 0.25 * tc
    - 0.25 * hdl + 0.44 * smoke_ind + 0.51 * dm_ind
    - 0.2 * (egfr / 10) + 0.25 * Real.log (crp + 1) + 0.4 * vasc
  round1 (min ((1 - (0.900 : ℝ) ^ Real.exp (lp - 5.8)) * 100) 95.0)

/- ### Helper lemmas about one-decimal rounding -/

lemma round1_mono {x y : ℝ} (h : x ≤ y) : round1 x ≤ round1 y := by
  unfold round1
  have h10 : (10 : ℝ) * x ≤ 10 * y := by linarith
  have : round ((10 : ℝ) * x) ≤ round ((10 : ℝ) * y) := by
    rw [round_eq, round_eq]
    exact Int.floor_le_floor (by linarith)
  have hc : ((round ((10 : ℝ) * x) : ℤ) : ℝ) ≤ ((round ((10 : ℝ) * y) : ℤ) : ℝ) := by
    exact_mod_cast this
  linarith

lemma round1_int_div_ten (k : ℤ) : round1 ((k : ℝ) / 10) = (k : ℝ) / 10 := by
  unfold round1
  have h : (10 : ℝ) * ((k : ℝ) / 10) = (k : ℝ) := by ring
  rw [h, round_intCast]

lemma round1_nonneg {x : ℝ} (h : 0 ≤ x) : 0 ≤ round1 x := by
  have h0 : round1 0 = 0 := by
    have := round1_int_div_ten 0
    simpa using this
  calc (0 : ℝ) = round1 0 := h0.symm
    _ ≤ round1 x := round1_mono h

lemma round1_le_of_le_int_div_ten {x : ℝ} {k : ℤ} (h : x ≤ (k : ℝ) / 10) :
    round1 x ≤ (k : ℝ) / 10 := by
  calc round1 x ≤ round1 ((k : ℝ) / 10) := round1_mono h
    _ = (k : ℝ) / 10 := round1_int_div_ten k

lemma round1_eq_of_between {x : ℝ} {k : ℤ} (h1 : (k : ℝ) - 1 / 2 ≤ 10 * x)
    (h2 : 10 * x < (k : ℝ) + 1 / 2) : round1 x = (k : ℝ) / 10 := by
  unfold round1
  have : round ((10 : ℝ) * x) = k := by
    rw [round_eq]
    have hk1 : (k : ℝ) ≤ 10 * x + 1 / 2 := by linarith
    have hk2 : 10 * x + 1 / 2 < (k : ℝ) + 1 := by linarith
    have := Int.floor_eq_iff.mpr ⟨hk1, hk2⟩
    exact this
  rw [this]

/- ### Helper lemmas about real powers -/

lemma rpow_bracket (n : ℕ) {x e a b : ℝ} (hx : 0 ≤ x) (hen : e * n = 1)
    (hb : 0 ≤ b) (han : a ^ n < x) (hbn : x < b ^ n) :
    a < x ^ e ∧ x ^ e < b := by
  have hs : 0 ≤ x ^ e := Real.rpow_nonneg hx e
  have hsn : (x ^ e) ^ n = x := by
    have h1 : (x ^ e) ^ n = (x ^ e) ^ ((n : ℕ) : ℝ) := by
      rw [Real.rpow_natCast]
    rw [h1, ← Real.rpow_mul hx, hen, Real.rpow_one]
  constructor
  · by_contra hle
    push_neg at hle
    have hc : x ≤ a ^ n := by
      calc x = (x ^ e) ^ n := hsn.symm
        _ ≤ a ^ n := pow_le_pow_left₀ hs hle n
    linarith
  · by_contra hle
    push_neg at hle
    have hc : b ^ n ≤ x := by
      calc b ^ n ≤ (x ^ e) ^ n := pow_le_pow_left₀ hb hle n
        _ = x := hsn
    linarith

lemma round1_zero : round1 0 = 0 := by
  have h := round1_int_div_ten 0
  norm_num at h
  exact h

/- ### Helper lemmas about the therapy-effect table and the LDL fold -/

lemma E_range {d : String} {e : ℝ} (h : E d = some e) : 0 < e ∧ e < 1 := by
  unfold E at h
  split_ifs at h
  all_goals injection h with h2
  all_goals subst h2
  all_goals norm_num

lemma dfactor_pos (d : String) : 0 < dfactor d := by
  unfold dfactor
  cases hE : E d with
  | none => norm_num
  | some e =>
    have h := E_range hE
    simp only []
    linarith [h.2]

lemma dfactor_le_one (d : String) : dfactor d ≤ 1 := by
  unfold dfactor
  cases hE : E d with
  | none => norm_num
  | some e =>
    have h := E_range hE
    simp only []
    linarith [h.1]

lemma lfactor_nil : lfactor [] = 1 := by simp [lfactor]

lemma lfactor_cons (d : String) (l : List String) :
    lfactor (d :: l) = dfactor d * lfactor l := by
  simp [lfactor]

lemma lfactor_append (l1 l2 : List String) :
    lfactor (l1 ++ l2) = lfactor l1 * lfactor l2 := by
  simp [lfactor]

lemma lfactor_pos (l : List String) : 0 < lfactor l := by
  induction l with
  | nil => simp [lfactor_nil]
  | cons d l ih =>
    rw [lfactor_cons]
    exact mul_pos (dfactor_pos d) ih

lemma lfactor_le_one (l : List String) : lfactor l ≤ 1 := by
  induction l with
  | nil => simp [lfactor_nil]
  | cons d l ih =>
    rw [lfactor_cons]
    nlinarith [dfactor_pos d, dfactor_le_one d, lfactor_pos l]

lemma applyDrug_eq (ldl : ℝ) (d : String) : applyDrug ldl d = ldl * dfactor d := by
  unfold applyDrug dfactor
  cases hE : E d with
  | none => simp
  | some e => simp

lemma foldl_applyDrug (l : List String) (b : ℝ) :
    List.foldl applyDrug b l = b * lfactor l := by
  induction l generalizing b with
  | nil => simp [lfactor_nil]
  | cons d l ih =>
    rw [List.foldl_cons, ih, applyDrug_eq, lfactor_cons]
    ring

lemma calc_ldl_eq (b : ℝ) (pre new : List String) :
    calculate_ldl_projection b pre new = max (b * lfactor (pre ++ new)) 0.5 := by
  unfold calculate_ldl_projection
  rw [foldl_applyDrug]

/- ### Helper lemmas about the lifetime-risk function -/

lemma estimate_lifetime_risk_eq (age r10 : ℝ) :
    estimate_lifetime_risk age r10 =
      round1 (min ((1 - ((1 - min r10 95.0 / 100) ^ ((1 : ℝ) / 10))
        ^ (max (85 - age) 0)) * 100) 95.0) := by
  simp only [estimate_lifetime_risk, sub_sub_cancel]

lemma lifetime_age85 (age r10 : ℝ) (h : 85 ≤ age) :
    estimate_lifetime_risk age r10 = 0 := by
  rw [estimate_lifetime_risk_eq, max_eq_right (by linarith : 85 - age ≤ 0),
    Real.rpow_zero]
  rw [show ((1 : ℝ) - 1) * 100 = 0 by norm_num,
    min_eq_left (by norm_num : (0 : ℝ) ≤ 95.0), round1_zero]

lemma lifetime_zero (age : ℝ) : estimate_lifetime_risk age 0 = 0 := by
  rw [estimate_lifetime_risk_eq, min_eq_left (by norm_num : (0 : ℝ) ≤ 95.0)]
  rw [show (1 : ℝ) - 0 / 100 = 1 by norm_num, Real.one_rpow, Real.one_rpow]
  rw [show ((1 : ℝ) - 1) * 100 = 0 by norm_num,
    min_eq_left (by norm_num : (0 : ℝ) ≤ 95.0), round1_zero]

lemma lifetime_nonneg (age : ℝ) {r10 : ℝ} (h : 0 ≤ r10) :
    0 ≤ estimate_lifetime_risk age r10 := by
  rw [estimate_lifetime_risk_eq]
  have hp0 : 0 ≤ min r10 95.0 / 100 := by
    have := le_min h (by norm_num : (0 : ℝ) ≤ 95.0)
    linarith
  have hp1 : min r10 95.0 / 100 ≤ 1 := by
    have := min_le_right r10 95.0
    linarith
  have hb0 : (0 : ℝ) ≤ 1 - min r10 95.0 / 100 := by linarith
  have hb1 : 1 - min r10 95.0 / 100 ≤ 1 := by linarith
  have hs0 : 0 ≤ (1 - min r10 95.0 / 100) ^ ((1 : ℝ) / 10) :=
    Real.rpow_nonneg hb0 _
  have hs1 : (1 - min r10 95.0 / 100) ^ ((1 : ℝ) / 10) ≤ 1 :=
    Real.rpow_le_one hb0 hb1 (by norm_num)
  have hu1 : ((1 - min r10 95.0 / 100) ^ ((1 : ℝ) / 10)) ^ (max (85 - age) 0) ≤ 1 :=
    Real.rpow_le_one hs0 hs1 (le_max_right _ _)
  apply round1_nonneg
  exact le_min (by nlinarith) (by norm_num)

lemma lifetime_84_10 : estimate_lifetime_risk 84 10 = 1 := by
  obtain ⟨h1, h2⟩ : 0.9895 < (0.9 : ℝ) ^ ((1 : ℝ) / 10) ∧
      (0.9 : ℝ) ^ ((1 : ℝ) / 10) < 0.9896 :=
    rpow_bracket 10 (by norm_num) (by push_cast; norm_num) (by norm_num)
      (by norm_num) (by norm_num)
  rw [estimate_lifetime_risk_eq, min_eq_left (by norm_num : (10 : ℝ) ≤ 95.0)]
  rw [show (85 : ℝ) - 84 = 1 by norm_num,
    max_eq_left (by norm_num : (0 : ℝ) ≤ 1),
    show (1 : ℝ) - (10 : ℝ) / 100 = 0.9 by norm_num, Real.rpow_one]
  rw [min_eq_left (by nlinarith)]
  have hlow : ((10 : ℤ) : ℝ) - 1 / 2 ≤ 10 * ((1 - (0.9 : ℝ) ^ ((1 : ℝ) / 10)) * 100) := by
    push_cast
    nlinarith
  have hhigh : 10 * ((1 - (0.9 : ℝ) ^ ((1 : ℝ) / 10)) * 100) < ((10 : ℤ) : ℝ) + 1 / 2 := by
    push_cast
    nlinarith
  rw [round1_eq_of_between hlow hhigh]
  norm_num

/- ### Helper lemmas about the results-step ARR/RRR expressions -/

lemma rrr10_eq (age r10 : ℝ) :
    rrr10 age r10 =
      if age < 85 then
        (if r10 - estimate_lifetime_risk age r10 = 0 then none
         else some (round1 ((r10 - estimate_lifetime_risk age r10) / r10 * 100)))
      else none := by
  unfold rrr10 arr10
  by_cases h : age < 85
  · rw [if_pos h, if_pos h]
  · rw [if_neg h, if_neg h]

lemma rrr10_at_zero (age : ℝ) : rrr10 age 0 = none := by
  rw [rrr10_eq]
  by_cases h : age < 85
  · rw [if_pos h, lifetime_zero, if_pos (by norm_num)]
  · rw [if_neg h]

lemma rrr10_84_10 : rrr10 84 10 = some 90 := by
  rw [rrr10_eq, if_pos (by norm_num : (84 : ℝ) < 85), lifetime_84_10]
  rw [if_neg (by norm_num : ¬((10 : ℝ) - 1 = 0))]
  rw [show ((10 : ℝ) - 1) / 10 * 100 = 90 by norm_num]
  have h := round1_int_div_ten 900
  norm_num at h
  rw [h]

/- ### Helper lemmas about the 10-year risk formula -/

lemma risk_core_nonneg (z : ℝ) :
    0 ≤ round1 (min ((1 - (0.900 : ℝ) ^ Real.exp z) * 100) 95.0) := by
  have h1 : (0.900 : ℝ) ^ Real.exp z ≤ 1 :=
    Real.rpow_le_one (by norm_num) (by norm_num) (Real.exp_pos z).le
  apply round1_nonneg
  exact le_min (by nlinarith) (by norm_num)

lemma risk_core_le_95 (z : ℝ) :
    round1 (min ((1 - (0.900 : ℝ) ^ Real.exp z) * 100) 95.0) ≤ 95 := by
  have h : min ((1 - (0.900 : ℝ) ^ Real.exp z) * 100) 95.0 ≤ ((950 : ℤ) : ℝ) / 10 := by
    have := min_le_right ((1 - (0.900 : ℝ) ^ Real.exp z) * 100) 95.0
    push_cast
    linarith
  have h2 := round1_le_of_le_int_div_ten h
  push_cast at h2
  linarith

lemma risk_core_mono {z1 z2 : ℝ} (h : z1 ≤ z2) :
    round1 (min ((1 - (0.900 : ℝ) ^ Real.exp z1) * 100) 95.0) ≤
      round1 (min ((1 - (0.900 : ℝ) ^ Real.exp z2) * 100) 95.0) := by
  have hexp : Real.exp z1 ≤ Real.exp z2 := Real.exp_le_exp.mpr h
  have hpow : (0.900 : ℝ) ^ Real.exp z2 ≤ (0.900 : ℝ) ^ Real.exp z1 :=
    Real.rpow_le_rpow_of_exponent_ge (by norm_num) (by norm_num) hexp
  apply round1_mono
  exact min_le_min (by nlinarith) (le_refl 95.0)

lemma risk_eq_some (age : ℝ) (sex : String) (sbp tc hdl : ℝ)
    (smoker diabetes : Bool) (egfr crp vasc : ℝ) (hcrp : -1 < crp) :
    estimate_10y_risk age sex sbp tc hdl smoker diabetes egfr crp vasc =
      some (spec_10y_risk age (if sex = "Male" then 1 else 0) sbp tc hdl
        (if smoker then 1 else 0) (if diabetes then 1 else 0) egfr crp vasc) := by
  unfold estimate_10y_risk mathlog spec_10y_risk
  rw [if_pos (by linarith : (0 : ℝ) < crp + 1)]
  rfl

lemma spec_risk_nonneg (a si sbp tc hdl sm dm egfr crp vasc : ℝ) :
    0 ≤ spec_10y_risk a si sbp tc hdl sm dm egfr crp vasc := by
  unfold spec_10y_risk
  exact risk_core_nonneg _

lemma spec_risk_le_95 (a si sbp tc hdl sm dm egfr crp vasc : ℝ) :
    spec_10y_risk a si sbp tc hdl sm dm egfr crp vasc ≤ 95 := by
  unfold spec_10y_risk
  exact risk_core_le_95 _

lemma spec_risk_mono (si sm dm hdl egfr : ℝ)
    {a sbp tc crp vasc a2 sbp2 tc2 crp2 vasc2 : ℝ}
    (hcrp : -1 < crp) (h1 : a ≤ a2) (h2 : sbp ≤ sbp2) (h3 : tc ≤ tc2)
    (h4 : crp ≤ crp2) (h5 : vasc ≤ vasc2) :
    spec_10y_risk a si sbp tc hdl sm dm egfr crp vasc ≤
      spec_10y_risk a2 si sbp2 tc2 hdl sm dm egfr crp2 vasc2 := by
  unfold spec_10y_risk
  apply risk_core_mono
  have hlog : Real.log (crp + 1) ≤ Real.log (crp2 + 1) :=
    (Real.log_le_log_iff (by linarith) (by linarith)).mpr (by linarith)
  linarith

/- ### Claim theorems -/

/-- C1: for every input with crp > -1, `estimate_10y_risk` returns exactly
`round (min ((1 - 0.900 ^ exp (lp - 5.8)) * 100) 95.0)` to one decimal, where
`lp` is the spec's weighted sum of the covariates with the fixed coefficient
vector — i.e. the code implements the spec's log-linear transform with baseline
survival 0.900, offset 5.8, percentage scaling, one-decimal rounding and the
95.0 cap. -/
theorem claim_C1_risk_formula (age : ℝ) (sex : String) (sbp tc hdl : ℝ)
    (smoker diabetes : Bool) (egfr crp vasc : ℝ) (hcrp : -1 < crp) :
    estimate_10y_risk age sex sbp tc hdl smoker diabetes egfr crp vasc =
      some (spec_10y_risk age (if sex = "Male" then 1 else 0) sbp tc hdl
        (if smoker then 1 else 0) (if diabetes then 1 else 0) egfr crp vasc) :=
  risk_eq_some age sex sbp tc hdl smoker diabetes egfr crp vasc hcrp

/-- Witness for C1 at a concrete profile. -/
theorem claim_C1_risk_formula_witness :
    -1 < (2 : ℝ) ∧
    estimate_10y_risk 60 "Male" 145 5 1 false false 80 2 0 =
      some (spec_10y_risk 60 1 145 5 1 0 0 80 2 0) := by
  constructor
  · norm_num
  · have h := claim_C1_risk_formula 60 "Male" 145 5 1 false false 80 2 0 (by norm_num)
    simpa using h

/-- C2 counterexample: the reported RRR is not capped at 75.  At age 84 with a
10-year risk of 10 the lifetime risk is 1.0, so the code reports
RRR = round((10 - 1) / 10 * 100, 1) = 90 > 75. -/
theorem claim_C2_counterexample : rrr10 84 10 = some 90 ∧ (75 : ℝ) < 90 :=
  ⟨rrr10_84_10, by norm_num⟩

/-- C2 amended: the code applies no 75-percent ceiling to the reported RRR
(values up to 100 occur); what does hold is that for a nonnegative baseline
10-year risk every reported RRR value is at most 100. -/
theorem claim_C2_rrr_le_100 (age r10 v : ℝ) (h0 : 0 ≤ r10)
    (hv : rrr10 age r10 = some v) : v ≤ 100 := by
  rw [rrr10_eq] at hv
  by_cases h85 : age < 85
  · rw [if_pos h85] at hv
    by_cases ha : r10 - estimate_lifetime_risk age r10 = 0
    · rw [if_pos ha] at hv
      exact Option.noConfusion hv
    · rw [if_neg ha] at hv
      injection hv with h2
      rcases h0.lt_or_eq with hpos | heq
      · have hrlt := lifetime_nonneg age h0
        have hdiv : (r10 - estimate_lifetime_risk age r10) / r10 ≤ 1 := by
          rw [div_le_one hpos]
          linarith
        have harg : (r10 - estimate_lifetime_risk age r10) / r10 * 100 ≤
            ((1000 : ℤ) : ℝ) / 10 := by
          push_cast
          nlinarith
        have hle := round1_le_of_le_int_div_ten harg
        push_cast at hle
        rw [← h2]
        linarith
      · exfalso
        apply ha
        rw [← heq, lifetime_zero]
        norm_num
  · rw [if_neg h85] at hv
    exact Option.noConfusion hv

/-- Witness for the amended C2 at age 84, baseline risk 10, reported RRR 90. -/
theorem claim_C2_rrr_le_100_witness :
    (0 : ℝ) ≤ 10 ∧ rrr10 84 10 = some 90 ∧ (90 : ℝ) ≤ 100 :=
  ⟨by norm_num, rrr10_84_10, claim_C2_rrr_le_100 84 10 90 (by norm_num) rrr10_84_10⟩

/-- C3 counterexample: `estimate_lifetime_risk` itself does not return a
sentinel for age ≥ 85 — at age 85 it returns exactly 0. -/
theorem claim_C3_counterexample : estimate_lifetime_risk 85 10 = 0 :=
  lifetime_age85 85 10 (le_refl 85)

/-- C3 amended: for age ≥ 85 the reported lifetime risk (`lifetime_display`,
source line 151) is the distinct "N/A" sentinel (`none`), not a number and not
an error; the function `estimate_lifetime_risk` itself however returns 0 there,
so the sentinel lives in the display layer, not in the function. -/
theorem claim_C3_lifetime_sentinel (age r10 : ℝ) (h : 85 ≤ age) :
    lifetime_display age r10 = none ∧ estimate_lifetime_risk age r10 = 0 := by
  constructor
  · unfold lifetime_display
    rw [if_pos h]
  · exact lifetime_age85 age r10 h

/-- Witness for the amended C3 at age 85, r10 = 10. -/
theorem claim_C3_lifetime_sentinel_witness :
    (85 : ℝ) ≤ 85 ∧
    (lifetime_display 85 10 = none ∧ estimate_lifetime_risk 85 10 = 0) :=
  ⟨le_refl 85, claim_C3_lifetime_sentinel 85 10 (le_refl 85)⟩

/-- C4 counterexample: for a negative input the result of `convert_5yr` leaves
[0, 80]: `convert_5yr (-300) = -100 < 0` (the function clamps its input only
from above, at 95). -/
theorem claim_C4_counterexample :
    convert_5yr (-300) = -100 ∧ (-100 : ℝ) < 0 := by
  constructor
  · simp only [convert_5yr]
    rw [min_eq_left (by norm_num : (-300 : ℝ) ≤ 95.0)]
    rw [show (1 : ℝ) - (-300 : ℝ) / 100 = 4 by norm_num]
    have h4 : (4 : ℝ) ^ ((0.5 : ℝ)) = 2 := by
      rw [show (4 : ℝ) = (2 : ℝ) ^ (2 : ℕ) by norm_num, ← Real.rpow_natCast 2 2,
        ← Real.rpow_mul (by norm_num : (0 : ℝ) ≤ 2)]
      rw [show ((2 : ℕ) : ℝ) * (0.5 : ℝ) = 1 by push_cast; norm_num, Real.rpow_one]
    rw [h4]
    rw [show ((1 : ℝ) - 2) * 100 = -100 by norm_num]
    rw [min_eq_left (by norm_num : (-100 : ℝ) ≤ 95.0)]
    have h := round1_int_div_ten (-1000)
    norm_num at h
    exact h
  · norm_num

/-- C4 amended: for every nonnegative input r10, `convert_5yr r10` lies in
[0, 80] (negative inputs, which no caller produces, can make it negative; the
code's own cap constant is 95, but the value 80 is never exceeded). -/
theorem claim_C4_convert_5yr_range (r10 : ℝ) (h : 0 ≤ r10) :
    0 ≤ convert_5yr r10 ∧ convert_5yr r10 ≤ 80 := by
  have hsqrt : 0.2 < (0.05 : ℝ) ^ ((0.5 : ℝ)) ∧ (0.05 : ℝ) ^ ((0.5 : ℝ)) < 1 :=
    rpow_bracket 2 (by norm_num) (by push_cast; norm_num) (by norm_num)
      (by norm_num) (by norm_num)
  simp only [convert_5yr]
  have hp0 : 0 ≤ min r10 95.0 / 100 := by
    have := le_min h (by norm_num : (0 : ℝ) ≤ 95.0)
    linarith
  have hp1 : min r10 95.0 / 100 ≤ 0.95 := by
    have := min_le_right r10 95.0
    linarith
  have hb0 : (0 : ℝ) ≤ 1 - min r10 95.0 / 100 := by linarith
  have hb05 : (0.05 : ℝ) ≤ 1 - min r10 95.0 / 100 := by linarith
  have hb1 : 1 - min r10 95.0 / 100 ≤ 1 := by linarith
  have hs_ge : (0.05 : ℝ) ^ ((0.5 : ℝ)) ≤ (1 - min r10 95.0 / 100) ^ ((0.5 : ℝ)) :=
    Real.rpow_le_rpow (by norm_num) hb05 (by norm_num)
  have hs1 : (1 - min r10 95.0 / 100) ^ ((0.5 : ℝ)) ≤ 1 :=
    Real.rpow_le_one hb0 hb1 (by norm_num)
  constructor
  · apply round1_nonneg
    exact le_min (by nlinarith) (by norm_num)
  · have harg : min ((1 - (1 - min r10 95.0 / 100) ^ ((0.5 : ℝ))) * 100) 95.0 ≤
        ((800 : ℤ) : ℝ) / 10 := by
      have hmin := min_le_left ((1 - (1 - min r10 95.0 / 100) ^ ((0.5 : ℝ))) * 100) 95.0
      push_cast
      nlinarith [hsqrt.1]
    have h2 := round1_le_of_le_int_div_ten harg
    push_cast at h2
    linarith

/-- Witness for the amended C4 at r10 = 10. -/
theorem claim_C4_convert_5yr_range_witness :
    (0 : ℝ) ≤ 10 ∧ (0 ≤ convert_5yr 10 ∧ convert_5yr 10 ≤ 80) :=
  ⟨by norm_num, claim_C4_convert_5yr_range 10 (by norm_num)⟩

/-- C6 counterexample: one-decimal rounding can push the 5-year value above a
10-year input that is not itself a one-decimal value: `convert_5yr 0.09999`
rounds up to 0.1 > 0.09999. -/
theorem claim_C6_counterexample :
    convert_5yr 0.09999 = 0.1 ∧ ¬(convert_5yr 0.09999 ≤ 0.09999) := by
  have hs : 0.9985 < (0.9990001 : ℝ) ^ ((0.5 : ℝ)) ∧
      (0.9990001 : ℝ) ^ ((0.5 : ℝ)) < 0.9995 :=
    rpow_bracket 2 (by norm_num) (by push_cast; norm_num) (by norm_num)
      (by norm_num) (by norm_num)
  have heq : convert_5yr 0.09999 = 0.1 := by
    simp only [convert_5yr]
    rw [min_eq_left (by norm_num : (0.09999 : ℝ) ≤ 95.0)]
    rw [show (1 : ℝ) - (0.09999 : ℝ) / 100 = 0.9990001 by norm_num]
    rw [min_eq_left (by nlinarith [hs.1])]
    have hlow : ((1 : ℤ) : ℝ) - 1 / 2 ≤
        10 * ((1 - (0.9990001 : ℝ) ^ ((0.5 : ℝ))) * 100) := by
      push_cast
      nlinarith [hs.2]
    have hhigh : 10 * ((1 - (0.9990001 : ℝ) ^ ((0.5 : ℝ))) * 100) <
        ((1 : ℤ) : ℝ) + 1 / 2 := by
      push_cast
      nlinarith [hs.1]
    rw [round1_eq_of_between hlow hhigh]
    norm_num
  refine ⟨heq, ?_⟩
  rw [heq]
  norm_num

/-- C6 amended: for every r10 > 0 that is an exact multiple of 0.1 — as every
risk the pipeline feeds into `convert_5yr` is, being rounded to one decimal —
`convert_5yr r10 ≤ r10`; the inequality can only fail by rounding on inputs
that are not one-decimal values. -/
theorem claim_C6_convert_le (r10 : ℝ) (k : ℤ) (hk : 0 < k)
    (hr : r10 = (k : ℝ) / 10) : convert_5yr r10 ≤ r10 := by
  have hk0 : (0 : ℝ) < (k : ℝ) := by exact_mod_cast hk
  have hr0 : 0 ≤ r10 := by
    rw [hr]
    linarith
  simp only [convert_5yr]
  have hp0 : 0 ≤ min r10 95.0 / 100 := by
    have := le_min hr0 (by norm_num : (0 : ℝ) ≤ 95.0)
    linarith
  have hp1 : min r10 95.0 / 100 ≤ 0.95 := by
    have := min_le_right r10 95.0
    linarith
  have hb0 : (0 : ℝ) < 1 - min r10 95.0 / 100 := by linarith
  have hb1 : 1 - min r10 95.0 / 100 ≤ 1 := by linarith
  have hs_ge : 1 - min r10 95.0 / 100 ≤ (1 - min r10 95.0 / 100) ^ ((0.5 : ℝ)) := by
    have hmono := Real.rpow_le_rpow_of_exponent_ge hb0 hb1
      (by norm_num : (0.5 : ℝ) ≤ 1)
    rwa [Real.rpow_one] at hmono
  have harg : min ((1 - (1 - min r10 95.0 / 100) ^ ((0.5 : ℝ))) * 100) 95.0 ≤
      (k : ℝ) / 10 := by
    have hmin := min_le_left ((1 - (1 - min r10 95.0 / 100) ^ ((0.5 : ℝ))) * 100) 95.0
    have hphys : min r10 95.0 ≤ r10 := min_le_left _ _
    rw [← hr]
    nlinarith
  calc round1 (min ((1 - (1 - min r10 95.0 / 100) ^ ((0.5 : ℝ))) * 100) 95.0) ≤
        (k : ℝ) / 10 := round1_le_of_le_int_div_ten harg
    _ = r10 := hr.symm

/-- Witness for the amended C6 at r10 = 0.2. -/
theorem claim_C6_convert_le_witness :
    (0 : ℤ) < 2 ∧ (0.2 : ℝ) = ((2 : ℤ) : ℝ) / 10 ∧ convert_5yr 0.2 ≤ 0.2 :=
  ⟨by norm_num, by push_cast; norm_num,
    claim_C6_convert_le 0.2 2 (by norm_num) (by push_cast; norm_num)⟩

/-- C7: appending further therapies to either list never raises the projected
LDL, and the projection never falls below the 0.5 mmol/L floor. -/
theorem claim_C7_ldl_mono_floor (b : ℝ) (pre new extra1 extra2 : List String) :
    calculate_ldl_projection b (pre ++ extra1) (new ++ extra2) ≤
      calculate_ldl_projection b pre new ∧
    0.5 ≤ calculate_ldl_projection b pre new := by
  constructor
  · rw [calc_ldl_eq, calc_ldl_eq]
    have hG : lfactor ((pre ++ extra1) ++ (new ++ extra2)) =
        lfactor (pre ++ new) * (lfactor extra1 * lfactor extra2) := by
      rw [lfactor_append, lfactor_append, lfactor_append, lfactor_append]
      ring
    rw [hG]
    have hF := lfactor_pos (pre ++ new)
    have hG1 := lfactor_pos extra1
    have hG2 := lfactor_pos extra2
    have hle1 := lfactor_le_one extra1
    have hle2 := lfactor_le_one extra2
    have hg1 : lfactor extra1 * lfactor extra2 ≤ 1 := by nlinarith
    by_cases hb : 0 ≤ b
    · have hbF : 0 ≤ b * lfactor (pre ++ new) := mul_nonneg hb hF.le
      have hstep := mul_le_of_le_one_right hbF hg1
      have hfinal : b * (lfactor (pre ++ new) * (lfactor extra1 * lfactor extra2)) ≤
          b * lfactor (pre ++ new) := by
        calc b * (lfactor (pre ++ new) * (lfactor extra1 * lfactor extra2)) =
              b * lfactor (pre ++ new) * (lfactor extra1 * lfactor extra2) := by ring
          _ ≤ b * lfactor (pre ++ new) := hstep
      exact max_le_max hfinal (le_refl 0.5)
    · push_neg at hb
      have hX : 0 < lfactor (pre ++ new) * (lfactor extra1 * lfactor extra2) :=
        mul_pos hF (mul_pos hG1 hG2)
      have hneg : b * (lfactor (pre ++ new) * (lfactor extra1 * lfactor extra2)) ≤ 0.5 := by
        nlinarith
      rw [max_eq_right hneg]
      exact le_max_right _ _
  · rw [calc_ldl_eq]
    exact le_max_right _ _

/-- C8 counterexample: with a baseline 10-year risk of exactly 0 the code
reports RRR as `None` (displayed "N/A"), not as the number 0. -/
theorem claim_C8_counterexample :
    rrr10 60 0 = none ∧ (none : Option ℝ) ≠ some 0 :=
  ⟨rrr10_at_zero 60, by simp⟩

/-- C8 amended: when the baseline 10-year risk is exactly 0, `arr10` is the
falsy 0.0, so the guard `if arr10` prevents any division — no division-by-zero
occurs — but RRR is reported as the sentinel `None` ("N/A"), not as 0. -/
theorem claim_C8_rrr_at_zero_baseline (age : ℝ) : rrr10 age 0 = none :=
  rrr10_at_zero age

/-- C9: `math.log (crp + 1)` is evaluated before anything else, so the call
rejects (raises, modelled as `none`) every input with crp + 1 ≤ 0, and for
every input with crp > -1 the computation is total and yields a value. -/
theorem claim_C9_log_guard (age : ℝ) (sex : String) (sbp tc hdl : ℝ)
    (smoker diabetes : Bool) (egfr crp vasc : ℝ) :
    (crp + 1 ≤ 0 →
      estimate_10y_risk age sex sbp tc hdl smoker diabetes egfr crp vasc = none) ∧
    (-1 < crp →
      ∃ v, estimate_10y_risk age sex sbp tc hdl smoker diabetes egfr crp vasc = some v) := by
  constructor
  · intro h
    simp only [estimate_10y_risk, mathlog]
    rw [if_neg (not_lt.mpr h)]
    rfl
  · intro h
    exact ⟨_, risk_eq_some age sex sbp tc hdl smoker diabetes egfr crp vasc h⟩

/-- Witness for C9: a rejected input with crp = -2 and an accepted one with
crp = 2. -/
theorem claim_C9_log_guard_witness :
    ((-2 : ℝ) + 1 ≤ 0 ∧
      estimate_10y_risk 60 "Male" 140 5 1 false false 80 (-2) 0 = none) ∧
    (-1 < (2 : ℝ) ∧
      ∃ v, estimate_10y_risk 60 "Male" 140 5 1 false false 80 2 0 = some v) :=
  ⟨⟨by norm_num,
      (claim_C9_log_guard 60 "Male" 140 5 1 false false 80 (-2) 0).1 (by norm_num)⟩,
   ⟨by norm_num,
      (claim_C9_log_guard 60 "Male" 140 5 1 false false 80 2 0).2 (by norm_num)⟩⟩

/-- C5: for crp > -1 the 10-year risk is a value in [0, 95], and raising any of
age, systolic BP, total cholesterol, CRP and vascular count (componentwise,
holding sex, smoking, diabetes, HDL and eGFR fixed) never lowers it. -/
theorem claim_C5_risk_bounds_mono (sex : String) (smoker diabetes : Bool)
    (hdl egfr : ℝ) (age sbp tc crp vasc age2 sbp2 tc2 crp2 vasc2 : ℝ)
    (hcrp : -1 < crp) (h1 : age ≤ age2) (h2 : sbp ≤ sbp2) (h3 : tc ≤ tc2)
    (h4 : crp ≤ crp2) (h5 : vasc ≤ vasc2) :
    ∃ v v2,
      estimate_10y_risk age sex sbp tc hdl smoker diabetes egfr crp vasc = some v ∧
      estimate_10y_risk age2 sex sbp2 tc2 hdl smoker diabetes egfr crp2 vasc2 = some v2 ∧
      0 ≤ v ∧ v ≤ 95 ∧ v ≤ v2 := by
  refine ⟨_, _, risk_eq_some age sex sbp tc hdl smoker diabetes egfr crp vasc hcrp,
    risk_eq_some age2 sex sbp2 tc2 hdl smoker diabetes egfr crp2 vasc2 (by linarith),
    spec_risk_nonneg _ _ _ _ _ _ _ _ _ _, spec_risk_le_95 _ _ _ _ _ _ _ _ _ _, ?_⟩
  exact spec_risk_mono _ _ _ _ _ hcrp h1 h2 h3 h4 h5

/-- Witness for C5 at two concrete componentwise-ordered profiles. -/
theorem claim_C5_risk_bounds_mono_witness :
    ∃ v v2,
      estimate_10y_risk 60 "Male" 140 5 1 false false 80 2 0 = some v ∧
      estimate_10y_risk 61 "Male" 150 6 1 false false 80 3 1 = some v2 ∧
      0 ≤ v ∧ v ≤ 95 ∧ v ≤ v2 :=
  claim_C5_risk_bounds_mono "Male" false false 1 80 60 140 5 2 0 61 150 6 3 1
    (by norm_num) (by norm_num) (by norm_num) (by norm_num) (by norm_num)
    (by norm_num)

/-- C10: a therapy identifier absent from the effect table — in particular the
literal "None" the selectors pass in — is silently skipped wherever it occurs
in either list: the projected LDL is unchanged. -/
theorem claim_C10_unknown_skipped (b : ℝ) (pre new xs ys : List String)
    (drug : String) (h : E drug = none) :
    calculate_ldl_projection b (xs ++ drug :: ys) new =
      calculate_ldl_projection b (xs ++ ys) new ∧
    calculate_ldl_projection b pre (xs ++ drug :: ys) =
      calculate_ldl_projection b pre (xs ++ ys) := by
  have hd : dfactor drug = 1 := by
    unfold dfactor
    rw [h]
  constructor
  · rw [calc_ldl_eq, calc_ldl_eq]
    have hx : b * lfactor ((xs ++ drug :: ys) ++ new) =
        b * lfactor ((xs ++ ys) ++ new) := by
      simp only [lfactor_append, lfactor_cons, hd]
      ring
    rw [hx]
  · rw [calc_ldl_eq, calc_ldl_eq]
    have hx : b * lfactor (pre ++ (xs ++ drug :: ys)) =
        b * lfactor (pre ++ (xs ++ ys)) := by
      simp only [lfactor_append, lfactor_cons, hd]
      ring
    rw [hx]

/-- Witness for C10: the placeholder "None" is not in the table and adding it
to either list leaves the projection unchanged. -/
theorem claim_C10_unknown_skipped_witness :
    E "None" = none ∧
    (calculate_ldl_projection 3.5 ("None" :: ["Ezetimibe 10 mg"]) [] =
        calculate_ldl_projection 3.5 ["Ezetimibe 10 mg"] [] ∧
      calculate_ldl_projection 3.5 ["Atorvastatin 80 mg"] ("None" :: ["Ezetimibe 10 mg"]) =
        calculate_ldl_projection 3.5 ["Atorvastatin 80 mg"] ["Ezetimibe 10 mg"]) :=
  ⟨rfl, claim_C10_unknown_skipped 3.5 ["Atorvastatin 80 mg"] [] []
    ["Ezetimibe 10 mg"] "None" rfl⟩

end HOPE
